import Mathlib

/-!
Verification of the per-site space-charge occupation model (pyscses/site.py)
and the grid-lookup helpers (project/practice.py).

Shallow embedding conventions:
* Real-valued quantities are modelled as `ℝ` (`ℚ` for the purely
  order-theoretic grid-lookup code, so that results are decidable).
* Python dicts keyed by species label are modelled as `String → Option ℝ`,
  built by left-to-right insertion (later assignment to the same key wins,
  matching Python dict assignment).
* Python exceptions are modelled with `Except PyError`; `PyError` carries the
  exception class so distinct failure kinds stay distinguishable.
* The module-level physical constants (`pyscses.constants` is not among the
  analysed sources) are passed to each operation as explicit parameters
  `q` (fundamental_charge) and `kB` (boltzmann_eV); concrete instantiations
  use the modelled constants below.
-/

namespace Pyscses

/-- Python exception classes raised by the embedded code. -/
inductive PyError where
  | valueError (msg : String)
  | keyError (k : String)
  | typeError
  deriving Repr, DecidableEq

/-- One defect species (pyscses/defect_species.py is not among the analysed
sources; field set modelled from the spec's DefectSpeciesDescriptor and from
its use in `Site.__init__`). -/
structure DefectSpecies where
  label : String
  valence : ℝ
  mole_fraction : ℝ
  mobility : ℝ
  can_equilibrate : Bool

/-- A defect species bound to one site (pyscses/defect_at_site.py is not among
the analysed sources; field set modelled from the spec's SiteDefectInstance and
from its construction in `Site.__init__`; the non-owning back-reference to the
site is unused by the verified operations and is omitted). -/
structure DefectAtSite where
  label : String
  valence : ℝ
  mole_fraction : ℝ
  mobility : ℝ
  energy : ℝ
  can_equilibrate : Bool

/-- Modelled from the spec: the externally-owned GridLink collaborator
(pyscses/grid_point.py is not among the analysed sources); all the verified
code needs is that, when attached, it can produce an aggregated energy for a
given method name. -/
structure GridPoint where
  average_site_energy : String → ℝ

/-- Post-construction state of `Site` (site.py lines 82-104).  The derived
fields `fixed_defects`, `mobile_defects` and `alpha` are deterministic
functions of the stored fields and are embedded as definitions below. -/
structure Site where
  label : String
  x : ℝ
  defects : List DefectAtSite
  scaling : List ℝ
  grid_point : Option GridPoint
  valence : ℝ
  saturation_parameter : ℝ

/-- Modelled from the spec: the fundamental charge constant exported by
pyscses.constants (a physical constant, out of scope of the sources). -/
noncomputable def fundamental_charge : ℝ := 1.602176634e-19

/-- Modelled from the spec: the Boltzmann constant in eV/K exported by
pyscses.constants (a physical constant, out of scope of the sources). -/
noncomputable def boltzmann_eV : ℝ := 8.617333262e-5

/-- Modelled from the spec: `DefectAtSite.boltzmann_factor(phi, temp)`
(pyscses/defect_at_site.py is not among the analysed sources); formula taken
verbatim from the spec:
`exp(−(energy + valence × fundamental_charge × phi) / (boltzmann_eV × temp))`.
The constants are explicit parameters `q`, `kB`. -/
noncomputable def DefectAtSite.boltzmann_factor (q kB : ℝ) (d : DefectAtSite) (phi temp : ℝ) : ℝ :=
  Real.exp (-(d.energy + d.valence * q * phi) / (kB * temp))

/-- `self.fixed_defects = tuple(d for d in self.defects if not d.can_equilibrate)`
(site.py line 101). -/
def Site.fixed_defects (s : Site) : List DefectAtSite :=
  s.defects.filter (fun d => !d.can_equilibrate)

/-- `self.mobile_defects = tuple(d for d in self.defects if d.can_equilibrate)`
(site.py line 102). -/
def Site.mobile_defects (s : Site) : List DefectAtSite :=
  s.defects.filter (fun d => d.can_equilibrate)

/-- `self.alpha = self.saturation_parameter - sum(d.mole_fraction for d in self.fixed_defects)`
(site.py line 103). -/
noncomputable def Site.alpha (s : Site) : ℝ :=
  s.saturation_parameter - (s.fixed_defects.map (fun d => d.mole_fraction)).sum

/-- Python dict assignment `m[k] = v`: the new binding shadows any older one. -/
def dictUpd (m : String → Option ℝ) (k : String) (v : ℝ) : String → Option ℝ :=
  fun k' => if k' = k then some v else m k'

/-- Build a label-keyed dict by iterating over a list of defects in order and
assigning `m[d.label] = f d` for each, exactly like the dict-building loops in
site.py. -/
def dictOf (f : DefectAtSite → ℝ) (ds : List DefectAtSite) : String → Option ℝ :=
  ds.foldl (fun m d => dictUpd m d.label (f d)) (fun _ => none)

/-- `boltzmann_factors = {d.label: d.boltzmann_factor(phi, temp) for d in self.mobile_defects}`
(site.py lines 176 and 202). -/
noncomputable def Site.boltzmann_factors (q kB : ℝ) (s : Site) (phi temp : ℝ) : String → Option ℝ :=
  dictOf (fun d => d.boltzmann_factor q kB phi temp) s.mobile_defects

/-- `denominator = self.alpha + sum([d.mole_fraction * (boltzmann_factors[d.label] - 1.0) for d in self.mobile_defects])`
(site.py lines 177-179 and 203-205).  The dict lookup cannot fail here
(every key looked up was just inserted), so the unreachable default `.getD 0`
is never exercised. -/
noncomputable def Site.denominator (q kB : ℝ) (s : Site) (phi temp : ℝ) : ℝ :=
  s.alpha + (s.mobile_defects.map
    (fun d => d.mole_fraction * ((s.boltzmann_factors q kB phi temp d.label).getD 0 - 1))).sum

/-- `Site.probabilities(phi, temp)` (site.py lines 162-186): iterate over all
defects; a non-equilibrating defect gets its bulk mole fraction, an
equilibrating one gets `alpha * mole_fraction * boltzmann_factors[label] / denominator`. -/
noncomputable def Site.probabilities (q kB : ℝ) (s : Site) (phi temp : ℝ) : String → Option ℝ :=
  dictOf (fun d =>
      if d.can_equilibrate then
        s.alpha * d.mole_fraction * (s.boltzmann_factors q kB phi temp d.label).getD 0
          / s.denominator q kB phi temp
      else d.mole_fraction)
    s.defects

/-- `Site.mobile_defect_probabilities(phi, temp)` (site.py lines 188-210):
same loop, but only equilibrating defects are inserted into the dict.
Iterating `self.defects` and skipping the non-equilibrating ones inserts
exactly the elements of `self.mobile_defects`, in the same order. -/
noncomputable def Site.mobile_defect_probabilities (q kB : ℝ) (s : Site) (phi temp : ℝ) : String → Option ℝ :=
  dictOf (fun d =>
      s.alpha * d.mole_fraction * (s.boltzmann_factors q kB phi temp d.label).getD 0
        / s.denominator q kB phi temp)
    s.mobile_defects

/-- `Site.probabilities_as_list(phi, temp)` (site.py lines 212-230): emits a
deprecation notice (modelled as the Boolean first component, always `true`)
and returns `[probabilities_dict[d.label] for d in self.defects]`. -/
noncomputable def Site.probabilities_as_list (q kB : ℝ) (s : Site) (phi temp : ℝ) :
    Bool × List (Option ℝ) :=
  (true, s.defects.map (fun d => s.probabilities q kB phi temp d.label))

/-- Sequential effectful map over a list: the first raised exception
propagates, exactly like a Python list comprehension. -/
def exceptMap {α β : Type} (l : List α) (f : α → Except PyError β) :
    Except PyError (List β) :=
  match l with
  | [] => Except.ok []
  | a :: rest =>
    match f a with
    | Except.error e => Except.error e
    | Except.ok b =>
      match exceptMap rest f with
      | Except.error e => Except.error e
      | Except.ok bs => Except.ok (b :: bs)

/-- Python `float(v)` applied to a numpy array: succeeds only on size-1
arrays, otherwise raises TypeError. -/
def pyFloat (v : List ℝ) : Except PyError ℝ :=
  match v with
  | [x] => Except.ok x
  | _ => Except.error PyError.typeError

/-- `Site.charge(phi, temp)` (site.py lines 236-255):
`charge = sum([defect_probabilities[d.label] * d.valence for d in self.defects]) * self.scaling`
(a scalar broadcast over the per-species scaling array), then
`charge += self.valence`, `charge *= fundamental_charge`, `float(charge)`.
A dict lookup on a missing label raises KeyError; the final `float` raises
TypeError unless the broadcast array has exactly one entry. -/
noncomputable def Site.charge (q kB : ℝ) (s : Site) (phi temp : ℝ) : Except PyError ℝ :=
  match exceptMap s.defects (fun d =>
      match s.probabilities q kB phi temp d.label with
      | some p => Except.ok (p * d.valence)
      | none => Except.error (PyError.keyError d.label)) with
  | Except.error e => Except.error e
  | Except.ok terms =>
    pyFloat (((s.scaling.map (fun sc => terms.sum * sc)).map
      (fun c => c + s.valence)).map (fun c => c * q))

/-- `Site.charge_from_mobile_defects(phi, temp)` (site.py lines 257-273):
`charge = sum([mobile_defect_probabilities[d.label] * d.valence for d in self.defects]) * self.scaling`,
then `charge *= fundamental_charge`, `float(charge)`.  Note that the sum
iterates over ALL defects while the dict only holds mobile labels. -/
noncomputable def Site.charge_from_mobile_defects (q kB : ℝ) (s : Site) (phi temp : ℝ) :
    Except PyError ℝ :=
  match exceptMap s.defects (fun d =>
      match s.mobile_defect_probabilities q kB phi temp d.label with
      | some p => Except.ok (p * d.valence)
      | none => Except.error (PyError.keyError d.label)) with
  | Except.error e => Except.error e
  | Except.ok terms =>
    pyFloat ((s.scaling.map (fun sc => terms.sum * sc)).map (fun c => c * q))

/-- `Site.average_local_energy(method)` (site.py lines 143-160): delegates to
the attached grid point, else `raise ValueError("TODO")`. -/
noncomputable def Site.average_local_energy (s : Site) (method : String) : Except PyError ℝ :=
  match s.grid_point with
  | some gp => Except.ok (gp.average_site_energy method)
  | none => Except.error (PyError.valueError ("TODO"))

/-- Python truthiness of the optional `scaling` argument (`if scaling:` at
site.py lines 79 and 94), for the sequence case: truthy iff present and
non-empty. -/
def listTruthy (scaling : Option (List ℝ)) : Bool :=
  match scaling with
  | some (_ :: _) => true
  | _ => false

/-- `DefectAtSite(label=d.label, valence=d.valence, mole_fraction=d.mole_fraction,
mobility=d.mobility, energy=e, site=self, can_equilibrate=d.can_equilibrate)`
(site.py lines 86-93; the back-reference to the site is omitted). -/
def DefectAtSite.ofSpecies (d : DefectSpecies) (e : ℝ) : DefectAtSite :=
  { label := d.label
    valence := d.valence
    mole_fraction := d.mole_fraction
    mobility := d.mobility
    energy := e
    can_equilibrate := d.can_equilibrate }

/-- `Site.__init__` (site.py lines 44-104): validates the list lengths, builds
one `DefectAtSite` per (species, energy) pair, and defaults `scaling` to a
list of ones of the same length as `defect_energies` when the `scaling`
argument is absent or falsy.  `grid_point` starts unset. -/
noncomputable def Site.init (label : String) (x : ℝ) (defect_species : List DefectSpecies)
    (defect_energies : List ℝ) (scaling : Option (List ℝ)) (valence : ℝ)
    (saturation_parameter : ℝ) : Except PyError Site :=
  if defect_species.length ≠ defect_energies.length then
    Except.error (PyError.valueError ("len(defect_species) must be equal to len(defect_energies)"))
  else if listTruthy scaling && defect_species.length != (scaling.getD []).length then
    Except.error (PyError.valueError ("len(defect_species) must be equal to len(scaling)"))
  else
    Except.ok
      { label := label
        x := x
        defects := List.zipWith DefectAtSite.ofSpecies defect_species defect_energies
        scaling := if listTruthy scaling then scaling.getD []
                   else List.replicate defect_energies.length 1
        grid_point := none
        valence := valence
        saturation_parameter := saturation_parameter }

/-- One entry of a site-data record: a defect label with its segregation
energy (pyscses/site_data.py is not among the analysed sources; modelled from
the spec's per-species energy entries and the accesses `d.label`, `d.energy`
in `Site.from_site_data`). -/
structure DefectData where
  label : String
  energy : ℝ

/-- Modelled from the spec: the external site-data record
(pyscses/site_data.py is not among the analysed sources); carries the label,
position, valence and per-species energy entries used by
`Site.from_site_data`. -/
structure SiteData where
  label : String
  x : ℝ
  valence : ℝ
  defect_data : List DefectData

/-- `Site.from_site_data(site_data, defect_species, **kwargs)` (site.py lines
275-307): filters the passed species to those whose labels appear in the
record, errors if a record label has no matching species, then calls the
constructor with the record's label/x/valence and the filtered
species/energies.  The accepted `**kwargs` (modelled as an arbitrary
association list) are never forwarded. -/
noncomputable def Site.from_site_data {K : Type} (site_data : SiteData)
    (defect_species : List DefectSpecies) (kwargs : List (String × K)) :
    Except PyError Site :=
  let defect_species_labels := site_data.defect_data.map (fun d => d.label)
  let defect_species_to_pass :=
    defect_species.filter (fun ds => defect_species_labels.contains ds.label)
  let defect_species_to_pass_labels := defect_species_to_pass.map (fun d => d.label)
  if defect_species_labels.all (fun l => defect_species_to_pass_labels.contains l) then
    Site.init site_data.label site_data.x defect_species_to_pass
      (site_data.defect_data.map (fun d => d.energy)) none site_data.valence 1.0
  else
    Except.error (PyError.valueError ("Could not find the label in the passed list of defect species."))

end Pyscses

namespace Practice

/-- Python stdlib `bisect.bisect_left(myList, myNumber)` (not among the
analysed sources): on a sorted list it returns the leftmost insertion point,
i.e. the number of elements strictly below `myNumber`.  The grid values are
embedded as `ℚ` (the code only compares and subtracts them). -/
def bisect_left (myList : List ℚ) (myNumber : ℚ) : ℕ :=
  myList.countP (fun e => decide (e < myNumber))

/-- `closest_index(myList, myNumber)` (practice.py lines 12-28).  When the
branch guards have been passed, `0 < pos < len myList`, so the `getD` defaults
are never exercised. -/
def closest_index (myList : List ℚ) (myNumber : ℚ) : ℕ :=
  let pos := bisect_left myList myNumber
  if pos = 0 then 0
  else if pos = myList.length then myList.length
  else
    let before := myList.getD (pos - 1) 0
    let after := myList.getD pos 0
    if after - myNumber < myNumber - before then pos else pos - 1

/-- `index_of_grid_at_x(grid, x)` (practice.py lines 8-10). -/
def index_of_grid_at_x (grid : List ℚ) (x : ℚ) : ℕ :=
  closest_index grid x

/-- `phi_at_x(phi, grid, x)` (practice.py lines 4-6); `phi[index]` raises
IndexError when the index is out of range, modelled as `none`. -/
def phi_at_x (phi : List ℚ) (grid : List ℚ) (x : ℚ) : Option ℚ :=
  phi.get? (index_of_grid_at_x grid x)

end Practice

namespace Pyscses

/-- Spec-side formula, following the spec's words (§4.3):
`denominator = alpha + Σ_mobile( mole_fraction × (boltzmann_factor − 1) )`,
each Boltzmann factor taken directly from the defect itself (no dict). -/
noncomputable def specDenominator (q kB : ℝ) (s : Site) (phi temp : ℝ) : ℝ :=
  s.alpha +
    (s.mobile_defects.map (fun d => d.mole_fraction * (d.boltzmann_factor q kB phi temp - 1))).sum

/-- Spec-side formula, following the spec's words (§4.3): a fixed species'
probability is its bulk mole fraction; a mobile species' probability is
`(alpha × mole_fraction × boltzmann_factor) / denominator`. -/
noncomputable def specProb (q kB : ℝ) (s : Site) (phi temp : ℝ) (d : DefectAtSite) : ℝ :=
  if d.can_equilibrate then
    s.alpha * d.mole_fraction * d.boltzmann_factor q kB phi temp / specDenominator q kB s phi temp
  else d.mole_fraction

/-- A mobile defect species. -/
noncomputable def defectA : DefectAtSite :=
  { label := "A", valence := 1, mole_fraction := 1/10, mobility := 1,
    energy := -1/2, can_equilibrate := true }

/-- A fixed (non-equilibrating) defect species. -/
noncomputable def defectB : DefectAtSite :=
  { label := "B", valence := -1, mole_fraction := 1/20, mobility := 0,
    energy := 0, can_equilibrate := false }

/-- A fixed defect species with unit valence and mole fraction 1/2. -/
noncomputable def defectF : DefectAtSite :=
  { label := "F", valence := 1, mole_fraction := 1/2, mobility := 0,
    energy := 0, can_equilibrate := false }

/-- A mobile defect species with zero segregation energy. -/
noncomputable def defectM : DefectAtSite :=
  { label := "M", valence := 2, mole_fraction := 1/4, mobility := 1,
    energy := 0, can_equilibrate := true }

/-- A mobile defect species with zero segregation energy (mole fraction 1/4). -/
noncomputable def defectA0 : DefectAtSite :=
  { label := "A", valence := 0, mole_fraction := 1/4, mobility := 1,
    energy := 0, can_equilibrate := true }

/-- A mobile defect species with segregation energy −1. -/
noncomputable def defectB1 : DefectAtSite :=
  { label := "B", valence := 0, mole_fraction := 1/4, mobility := 1,
    energy := -1, can_equilibrate := true }

/-- A site holding one mobile and one fixed defect species. -/
noncomputable def siteMixed : Site :=
  { label := "S", x := 0, defects := [defectA, defectB], scaling := [1],
    grid_point := none, valence := 0, saturation_parameter := 1 }

/-- A site with one fixed defect species, a non-unit scaling factor and a
non-zero site valence. -/
noncomputable def siteScaled : Site :=
  { label := "S", x := 0, defects := [defectF], scaling := [2],
    grid_point := none, valence := 1, saturation_parameter := 1 }

/-- A site with one fixed defect species and default scaling. -/
noncomputable def siteOneFixed : Site :=
  { label := "S", x := 0, defects := [defectF], scaling := [1],
    grid_point := none, valence := 0, saturation_parameter := 1 }

/-- A site with one fixed defect species, unit scaling and site valence 1. -/
noncomputable def siteValenced : Site :=
  { label := "S", x := 0, defects := [defectF], scaling := [1],
    grid_point := none, valence := 1, saturation_parameter := 1 }

/-- A site with a single mobile, zero-energy defect species. -/
noncomputable def siteOneMobile : Site :=
  { label := "S", x := 0, defects := [defectM], scaling := [1],
    grid_point := none, valence := 0, saturation_parameter := 1 }

/-- A site with two mobile defect species, one of zero energy and one of
energy −1. -/
noncomputable def siteTwoMobile : Site :=
  { label := "S", x := 0, defects := [defectA0, defectB1], scaling := [1, 1],
    grid_point := none, valence := 0, saturation_parameter := 1 }

/-- A concrete site-data record with valence 7 and a single defect entry. -/
noncomputable def sdExample : SiteData :=
  { label := "X", x := 0, valence := 7, defect_data := [{ label := "A", energy := 1/2 }] }

/-- A species list matching `sdExample`. -/
noncomputable def dsExample : List DefectSpecies :=
  [{ label := "A", valence := 1, mole_fraction := 1/10, mobility := 1, can_equilibrate := true }]

/-- The site that `Site.from_site_data` builds from `sdExample` and
`dsExample`. -/
noncomputable def siteFromData : Site :=
  { label := "X", x := 0,
    defects := [{ label := "A", valence := 1, mole_fraction := 1/10, mobility := 1,
                  energy := 1/2, can_equilibrate := true }],
    scaling := [1], grid_point := none, valence := 7, saturation_parameter := 1.0 }

theorem foldl_dictUpd_not_mem (f : DefectAtSite → ℝ) :
    ∀ (ds : List DefectAtSite) (m : String → Option ℝ) (k : String),
      k ∉ ds.map DefectAtSite.label →
      ds.foldl (fun m d => dictUpd m d.label (f d)) m k = m k := by
  intro ds
  induction ds with
  | nil => intro m k _; rfl
  | cons a tl ih =>
    intro m k hk
    simp only [List.map_cons, List.mem_cons, not_or] at hk
    simp only [List.foldl_cons]
    rw [ih _ k hk.2]
    simp [dictUpd, hk.1]

theorem foldl_dictUpd_mem_nodup (f : DefectAtSite → ℝ) :
    ∀ (ds : List DefectAtSite) (m : String → Option ℝ) (d : DefectAtSite),
      (ds.map DefectAtSite.label).Nodup → d ∈ ds →
      ds.foldl (fun m d => dictUpd m d.label (f d)) m d.label = some (f d) := by
  intro ds
  induction ds with
  | nil => intro m d _ hd; cases hd
  | cons a tl ih =>
    intro m d hn hd
    simp only [List.map_cons, List.nodup_cons] at hn
    simp only [List.foldl_cons]
    rcases List.mem_cons.mp hd with h | h
    · subst h
      rw [foldl_dictUpd_not_mem f tl _ _ hn.1]
      simp [dictUpd]
    · exact ih _ d hn.2 h

theorem dictOf_lookup_not_mem (f : DefectAtSite → ℝ) (ds : List DefectAtSite) (k : String)
    (hk : k ∉ ds.map DefectAtSite.label) : dictOf f ds k = none :=
  foldl_dictUpd_not_mem f ds _ k hk

theorem dictOf_lookup_nodup (f : DefectAtSite → ℝ) (ds : List DefectAtSite) (d : DefectAtSite)
    (hn : (ds.map DefectAtSite.label).Nodup) (hd : d ∈ ds) :
    dictOf f ds d.label = some (f d) :=
  foldl_dictUpd_mem_nodup f ds _ d hn hd

theorem foldl_dictUpd_congr (f g : DefectAtSite → ℝ) :
    ∀ (ds : List DefectAtSite) (m : String → Option ℝ), (∀ d ∈ ds, f d = g d) →
      ds.foldl (fun m d => dictUpd m d.label (f d)) m =
        ds.foldl (fun m d => dictUpd m d.label (g d)) m := by
  intro ds
  induction ds with
  | nil => intro m _; rfl
  | cons a tl ih =>
    intro m h
    simp only [List.foldl_cons]
    rw [h a (List.mem_cons_self a tl)]
    exact ih _ (fun d hd => h d (List.mem_cons_of_mem a hd))

theorem dictOf_congr (f g : DefectAtSite → ℝ) (ds : List DefectAtSite)
    (h : ∀ d ∈ ds, f d = g d) : dictOf f ds = dictOf g ds :=
  foldl_dictUpd_congr f g ds _ h

theorem nodup_mobile (s : Site) (hn : (s.defects.map DefectAtSite.label).Nodup) :
    (s.mobile_defects.map DefectAtSite.label).Nodup :=
  hn.sublist ((List.filter_sublist s.defects).map DefectAtSite.label)

theorem fixed_label_not_mobile (s : Site) (hn : (s.defects.map DefectAtSite.label).Nodup)
    (d : DefectAtSite) (hd : d ∈ s.defects) (hc : d.can_equilibrate = false) :
    d.label ∉ s.mobile_defects.map DefectAtSite.label := by
  intro hmem
  obtain ⟨d', hd'm, hlab⟩ := List.mem_map.mp hmem
  obtain ⟨hd'mem, hd'c⟩ := List.mem_filter.mp hd'm
  have hdd : d' = d := List.inj_on_of_nodup_map hn hd'mem hd hlab
  rw [hdd, hc] at hd'c
  cases hd'c

theorem boltzmann_factors_lookup (q kB : ℝ) (s : Site) (phi temp : ℝ) (d : DefectAtSite)
    (hn : (s.mobile_defects.map DefectAtSite.label).Nodup) (hd : d ∈ s.mobile_defects) :
    s.boltzmann_factors q kB phi temp d.label = some (d.boltzmann_factor q kB phi temp) :=
  dictOf_lookup_nodup _ _ _ hn hd

theorem denominator_eq_spec (q kB : ℝ) (s : Site) (phi temp : ℝ)
    (hn : (s.defects.map DefectAtSite.label).Nodup) :
    s.denominator q kB phi temp = specDenominator q kB s phi temp := by
  unfold Site.denominator specDenominator
  congr 1
  apply congrArg List.sum
  apply List.map_congr_left
  intro d hd
  rw [boltzmann_factors_lookup q kB s phi temp d (nodup_mobile s hn) hd]
  rfl

theorem prob_lookup (q kB : ℝ) (s : Site) (phi temp : ℝ) (d : DefectAtSite)
    (hn : (s.defects.map DefectAtSite.label).Nodup) (hd : d ∈ s.defects) :
    s.probabilities q kB phi temp d.label = some (specProb q kB s phi temp d) := by
  unfold Site.probabilities
  rw [dictOf_lookup_nodup _ _ _ hn hd]
  congr 1
  unfold specProb
  cases hc : d.can_equilibrate with
  | false => simp [hc]
  | true =>
    have hdm : d ∈ s.mobile_defects := List.mem_filter.mpr ⟨hd, hc⟩
    simp only [hc, if_true]
    rw [boltzmann_factors_lookup q kB s phi temp d (nodup_mobile s hn) hdm,
      denominator_eq_spec q kB s phi temp hn]
    rfl

theorem mobile_prob_lookup (q kB : ℝ) (s : Site) (phi temp : ℝ) (d : DefectAtSite)
    (hn : (s.defects.map DefectAtSite.label).Nodup) (hd : d ∈ s.mobile_defects) :
    s.mobile_defect_probabilities q kB phi temp d.label =
      some (specProb q kB s phi temp d) := by
  have hc : d.can_equilibrate = true := (List.mem_filter.mp hd).2
  unfold Site.mobile_defect_probabilities
  rw [dictOf_lookup_nodup _ _ _ (nodup_mobile s hn) hd]
  rw [boltzmann_factors_lookup q kB s phi temp d (nodup_mobile s hn) hd,
    denominator_eq_spec q kB s phi temp hn]
  unfold specProb
  simp [hc]

theorem mobile_prob_lookup_none (q kB : ℝ) (s : Site) (phi temp : ℝ) (d : DefectAtSite)
    (hn : (s.defects.map DefectAtSite.label).Nodup) (hd : d ∈ s.defects)
    (hc : d.can_equilibrate = false) :
    s.mobile_defect_probabilities q kB phi temp d.label = none :=
  dictOf_lookup_not_mem _ _ _ (fixed_label_not_mobile s hn d hd hc)

theorem exceptMap_congr {α β : Type} (l : List α) (f g : α → Except PyError β)
    (h : ∀ a ∈ l, f a = g a) : exceptMap l f = exceptMap l g := by
  induction l with
  | nil => rfl
  | cons a tl ih =>
    unfold exceptMap
    rw [h a (List.mem_cons_self a tl), ih (fun d hd => h d (List.mem_cons_of_mem a hd))]

theorem exceptMap_ok {α β : Type} (l : List α) (f : α → Except PyError β) (g : α → β)
    (h : ∀ a ∈ l, f a = Except.ok (g a)) : exceptMap l f = Except.ok (l.map g) := by
  induction l with
  | nil => rfl
  | cons a tl ih =>
    unfold exceptMap
    rw [h a (List.mem_cons_self a tl), ih (fun d hd => h d (List.mem_cons_of_mem a hd))]
    rfl

end Pyscses

namespace Pyscses

/-- C1: the claim says `charge_from_mobile_defects` skips defect labels that
are absent from the mobile-only probability mapping, so fixed species
contribute zero.  The code instead iterates over ALL defects and subscripts
the mobile-only dict, so on any site with a fixed defect it raises
KeyError on the fixed defect's label (here the fixed species "B" of
`siteMixed`), for every potential, temperature and choice of the physical
constants. -/
theorem c1_charge_from_mobile_defects_keyerror (q kB phi temp : ℝ) :
    siteMixed.charge_from_mobile_defects q kB phi temp =
      Except.error (PyError.keyError ("B")) := rfl

/-- C3: for every site with unique species labels and every `(phi, temp)`
with `temp > 0`, `probabilities` maps each fixed species' label to its bulk
mole fraction and each mobile species' label to
`(alpha × mole_fraction × boltzmann_factor) / denominator`, with
`denominator = alpha + Σ_mobile mole_fraction × (boltzmann_factor − 1)` and
`alpha = saturation_parameter − Σ_fixed mole_fraction`, the Boltzmann factors
being evaluated at this `(phi, temp)`; all as captured by the spec-side
`specProb` / `specDenominator`. -/
theorem c3_probabilities_formula (q kB : ℝ) (s : Site) (phi temp : ℝ)
    (htemp : 0 < temp) (hn : (s.defects.map DefectAtSite.label).Nodup) :
    s.alpha = s.saturation_parameter - (s.fixed_defects.map (fun d => d.mole_fraction)).sum ∧
      s.denominator q kB phi temp = specDenominator q kB s phi temp ∧
      ∀ d ∈ s.defects,
        s.probabilities q kB phi temp d.label = some (specProb q kB s phi temp d) :=
  ⟨rfl, denominator_eq_spec q kB s phi temp hn,
    fun d hd => prob_lookup q kB s phi temp d hn hd⟩

theorem c3_probabilities_formula_witness :
    (0 : ℝ) < 300 ∧
      (siteOneMobile.defects.map DefectAtSite.label).Nodup ∧
      siteOneMobile.probabilities fundamental_charge boltzmann_eV 1 300 (defectM.label) =
        some (specProb fundamental_charge boltzmann_eV siteOneMobile 1 300 defectM) :=
  ⟨by norm_num, by decide,
    (c3_probabilities_formula fundamental_charge boltzmann_eV siteOneMobile 1 300
      (by norm_num) (by decide)).2.2 defectM (List.mem_singleton_self defectM)⟩

/-- C4: for every site with no mobile defects (and unique labels),
`probabilities` is the same mapping at any two `(phi, temp)` inputs, and it
assigns each species its bulk mole fraction. -/
theorem c4_fixed_only_probabilities (q kB : ℝ) (s : Site) (phi1 temp1 phi2 temp2 : ℝ)
    (hm : s.mobile_defects = []) (hn : (s.defects.map DefectAtSite.label).Nodup) :
    s.probabilities q kB phi1 temp1 = s.probabilities q kB phi2 temp2 ∧
      ∀ d ∈ s.defects, s.probabilities q kB phi1 temp1 d.label = some d.mole_fraction := by
  have hfix : ∀ d ∈ s.defects, d.can_equilibrate = false := by
    intro d hd
    by_contra hc
    have hdm : d ∈ s.mobile_defects :=
      List.mem_filter.mpr ⟨hd, by simpa using hc⟩
    rw [hm] at hdm
    cases hdm
  constructor
  · unfold Site.probabilities
    apply dictOf_congr
    intro d hd
    rw [hfix d hd]
    simp
  · intro d hd
    rw [prob_lookup q kB s phi1 temp1 d hn hd]
    unfold specProb
    rw [hfix d hd]
    simp

theorem c4_fixed_only_probabilities_witness :
    siteOneFixed.mobile_defects = [] ∧
      (siteOneFixed.defects.map DefectAtSite.label).Nodup ∧
      siteOneFixed.probabilities fundamental_charge boltzmann_eV 0 100 =
        siteOneFixed.probabilities fundamental_charge boltzmann_eV 5 700 ∧
      siteOneFixed.probabilities fundamental_charge boltzmann_eV 0 100 (defectF.label) =
        some defectF.mole_fraction :=
  have h := c4_fixed_only_probabilities fundamental_charge boltzmann_eV siteOneFixed
    0 100 5 700 rfl (by decide)
  ⟨rfl, by decide, h.1, h.2 defectF (List.mem_singleton_self defectF)⟩

/-- C6: for every site with unique species labels, `probabilities_as_list`
emits its deprecation notice (the Boolean flag) and returns exactly the
`probabilities` values, reordered into the `defects` input order. -/
theorem c6_probabilities_as_list_equiv (q kB : ℝ) (s : Site) (phi temp : ℝ)
    (hn : (s.defects.map DefectAtSite.label).Nodup) :
    s.probabilities_as_list q kB phi temp =
      (true, s.defects.map (fun d => some (specProb q kB s phi temp d))) :=
  congrArg (Prod.mk true)
    (List.map_congr_left (fun d hd => prob_lookup q kB s phi temp d hn hd))

theorem c6_probabilities_as_list_equiv_witness :
    (siteMixed.defects.map DefectAtSite.label).Nodup ∧
      siteMixed.probabilities_as_list fundamental_charge boltzmann_eV 0 300 =
        (true, siteMixed.defects.map
          (fun d => some (specProb fundamental_charge boltzmann_eV siteMixed 0 300 d))) :=
  ⟨by decide,
    c6_probabilities_as_list_equiv fundamental_charge boltzmann_eV siteMixed 0 300 (by decide)⟩

/-- C2 counterexample: the claim multiplies `scaling` into the sum WITH the
site valence: `q × scaling × (Σ probability×valence + site_valence)`.  On
`siteScaled` (one fixed defect with probability 1/2 and valence 1, scaling 2,
site valence 1) that formula gives `3q`, but the code computes `2q`: it adds
the unscaled site valence after the scaling multiplication. -/
theorem c2_charge_counterexample :
    siteScaled.charge fundamental_charge boltzmann_eV 0 300 ≠
      Except.ok (fundamental_charge * (2 * ((1/2 * 1) + 1))) := by
  have h : siteScaled.charge fundamental_charge boltzmann_eV 0 300 =
      Except.ok (((1/2 * 1 + 0) * 2 + 1) * fundamental_charge) := rfl
  rw [h]
  intro hc
  rw [Except.ok.injEq] at hc
  norm_num [fundamental_charge] at hc

/-- C2 amended: for every site with unique species labels whose scaling list
has exactly one entry (otherwise the final `float()` conversion of the
broadcast array fails), `charge` returns
`(Σ_all-defects probability×valence × scaling₀ + site_valence) × fundamental_charge`:
the site valence is added AFTER the scaling multiplication, and the
probabilities are exactly the `probabilities(phi, temp)` values. -/
theorem c2_charge_amended (q kB : ℝ) (s : Site) (phi temp : ℝ)
    (hn : (s.defects.map DefectAtSite.label).Nodup) (hs : s.scaling.length = 1) :
    s.charge q kB phi temp =
      Except.ok (((s.defects.map (fun d => specProb q kB s phi temp d * d.valence)).sum
        * s.scaling.headI + s.valence) * q) := by
  obtain ⟨sc, hsc⟩ := List.length_eq_one.mp hs
  have hmap : exceptMap s.defects (fun d =>
      match s.probabilities q kB phi temp d.label with
      | some p => Except.ok (p * d.valence)
      | none => Except.error (PyError.keyError d.label)) =
      Except.ok (s.defects.map (fun d => specProb q kB s phi temp d * d.valence)) :=
    exceptMap_ok _ _ _ (fun d hd => by rw [prob_lookup q kB s phi temp d hn hd])
  unfold Site.charge
  rw [hmap, hsc]
  rfl

theorem c2_charge_amended_witness :
    (siteValenced.defects.map DefectAtSite.label).Nodup ∧
      siteValenced.scaling.length = 1 ∧
      siteValenced.charge fundamental_charge boltzmann_eV 2 500 =
        Except.ok (((siteValenced.defects.map
            (fun d => specProb fundamental_charge boltzmann_eV siteValenced 2 500 d * d.valence)).sum
          * siteValenced.scaling.headI + siteValenced.valence) * fundamental_charge) :=
  ⟨by decide, by decide,
    c2_charge_amended fundamental_charge boltzmann_eV siteValenced 2 500 (by decide) (by decide)⟩

/-- C5 counterexample: scaling every entry of `scaling` by 2 does NOT scale
the returned charge by 2 on `siteValenced` (site valence 1): the code adds
the unscaled site valence after the scaling multiplication, giving `2q`
instead of `2 × (3/2)q = 3q`. -/
theorem c5_charge_linearity_counterexample :
    Site.charge fundamental_charge boltzmann_eV
        { siteValenced with scaling := siteValenced.scaling.map (fun sc => 2 * sc) } 0 300 ≠
      (Site.charge fundamental_charge boltzmann_eV siteValenced 0 300).map (fun v => 2 * v) := by
  have h1 : Site.charge fundamental_charge boltzmann_eV
      { siteValenced with scaling := siteValenced.scaling.map (fun sc => 2 * sc) } 0 300 =
      Except.ok (((1/2 * 1 + 0) * (2 * 1) + 1) * fundamental_charge) := rfl
  have h2 : (Site.charge fundamental_charge boltzmann_eV siteValenced 0 300).map
      (fun v => 2 * v) =
      Except.ok (2 * (((1/2 * 1 + 0) * 1 + 1) * fundamental_charge)) := rfl
  rw [h1, h2]
  intro hc
  rw [Except.ok.injEq] at hc
  norm_num [fundamental_charge] at hc

/-- C5 amended: `charge` is linear in `scaling` provided the site's own
valence is 0 (the code adds the unscaled site valence after the scaling
multiplication), and linear in `fundamental_charge` provided `phi = 0` (for
`phi ≠ 0` the constant also enters the Boltzmann factors, so the dependence
is not linear).  Both equalities also hold in the failure cases, where both
sides raise the same error. -/
theorem c5_charge_linearity_amended :
    (∀ (q kB : ℝ) (s : Site) (phi temp c : ℝ), s.valence = 0 →
      Site.charge q kB { s with scaling := s.scaling.map (fun sc => c * sc) } phi temp =
        (Site.charge q kB s phi temp).map (fun v => c * v)) ∧
    (∀ (q kB : ℝ) (s : Site) (temp c : ℝ),
      Site.charge (c * q) kB s 0 temp = (Site.charge q kB s 0 temp).map (fun v => c * v)) := by
  constructor
  · intro q kB s phi temp c hval
    unfold Site.charge
    have hf : exceptMap s.defects (fun d =>
        match Site.probabilities q kB { s with scaling := s.scaling.map (fun sc => c * sc) }
            phi temp d.label with
        | some p => Except.ok (p * d.valence)
        | none => Except.error (PyError.keyError d.label)) =
        exceptMap s.defects (fun d =>
        match s.probabilities q kB phi temp d.label with
        | some p => Except.ok (p * d.valence)
        | none => Except.error (PyError.keyError d.label)) :=
      exceptMap_congr _ _ _ (fun d _ => rfl)
    rw [hf]
    cases hE : exceptMap s.defects (fun d =>
        match s.probabilities q kB phi temp d.label with
        | some p => Except.ok (p * d.valence)
        | none => Except.error (PyError.keyError d.label)) with
    | error e => rfl
    | ok terms =>
      rcases hsc : s.scaling with _ | ⟨a, _ | ⟨b, tl⟩⟩
      · rfl
      · show Except.ok ((terms.sum * (c * a) + s.valence) * q) =
          Except.ok (c * ((terms.sum * a + s.valence) * q))
        rw [hval, Except.ok.injEq]
        ring
      · rfl
  · intro q kB s temp c
    have hbf : Site.boltzmann_factors (c * q) kB s 0 temp =
        Site.boltzmann_factors q kB s 0 temp := by
      unfold Site.boltzmann_factors
      apply dictOf_congr
      intro d _
      unfold DefectAtSite.boltzmann_factor
      norm_num
    have hden : Site.denominator (c * q) kB s 0 temp = Site.denominator q kB s 0 temp := by
      unfold Site.denominator
      rw [hbf]
    have hpd : Site.probabilities (c * q) kB s 0 temp =
        Site.probabilities q kB s 0 temp := by
      unfold Site.probabilities
      apply dictOf_congr
      intro d _
      rw [hbf, hden]
    unfold Site.charge
    have hf : exceptMap s.defects (fun d =>
        match Site.probabilities (c * q) kB s 0 temp d.label with
        | some p => Except.ok (p * d.valence)
        | none => Except.error (PyError.keyError d.label)) =
        exceptMap s.defects (fun d =>
        match s.probabilities q kB 0 temp d.label with
        | some p => Except.ok (p * d.valence)
        | none => Except.error (PyError.keyError d.label)) :=
      exceptMap_congr _ _ _ (fun d _ => by rw [hpd])
    rw [hf]
    cases hE : exceptMap s.defects (fun d =>
        match s.probabilities q kB 0 temp d.label with
        | some p => Except.ok (p * d.valence)
        | none => Except.error (PyError.keyError d.label)) with
    | error e => rfl
    | ok terms =>
      rcases hsc : s.scaling with _ | ⟨a, _ | ⟨b, tl⟩⟩
      · rfl
      · show Except.ok ((terms.sum * a + s.valence) * (c * q)) =
          Except.ok (c * ((terms.sum * a + s.valence) * q))
        rw [Except.ok.injEq]
        ring
      · rfl

theorem c5_charge_linearity_amended_witness :
    siteOneFixed.valence = 0 ∧
      Site.charge 1 1 { siteOneFixed with
          scaling := siteOneFixed.scaling.map (fun sc => 2 * sc) } 5 7 =
        (Site.charge 1 1 siteOneFixed 5 7).map (fun v => 2 * v) ∧
      Site.charge (2 * 1) 1 siteOneFixed 0 7 =
        (Site.charge 1 1 siteOneFixed 0 7).map (fun v => 2 * v) :=
  ⟨rfl, c5_charge_linearity_amended.1 1 1 siteOneFixed 5 7 2 rfl,
    c5_charge_linearity_amended.2 1 1 siteOneFixed 7 2⟩

/-- C7 amended: at `phi = 0` a mobile species with `energy = 0` has Boltzmann
factor exactly 1 for every `temp > 0`, and — provided it is the site's ONLY
mobile species (so that the denominator collapses to `alpha`) and
`alpha ≠ 0` — its occupation probability from both `probabilities` and
`mobile_defect_probabilities` reduces exactly to its bulk mole fraction
(`alpha × m / alpha = m`).  With further mobile species of non-zero energy
the denominator differs from `alpha` and the reduction fails (see the
counterexample). -/
theorem c7_zero_energy_probability_amended (q kB : ℝ) (s : Site) (temp : ℝ)
    (d : DefectAtSite) (htemp : 0 < temp)
    (hn : (s.defects.map DefectAtSite.label).Nodup)
    (hm : s.mobile_defects = [d]) (he : d.energy = 0) (ha : s.alpha ≠ 0) :
    d.boltzmann_factor q kB 0 temp = 1 ∧
      s.probabilities q kB 0 temp d.label = some d.mole_fraction ∧
      s.mobile_defect_probabilities q kB 0 temp d.label = some d.mole_fraction := by
  have hbf : d.boltzmann_factor q kB 0 temp = 1 := by
    unfold DefectAtSite.boltzmann_factor
    rw [he]
    norm_num
  have hdm : d ∈ s.mobile_defects := by
    rw [hm]
    exact List.mem_singleton_self d
  have hd : d ∈ s.defects := (List.mem_filter.mp hdm).1
  have hc : d.can_equilibrate = true := (List.mem_filter.mp hdm).2
  have hspecden : specDenominator q kB s 0 temp = s.alpha := by
    unfold specDenominator
    rw [hm]
    simp [hbf]
  have hval : specProb q kB s 0 temp d = d.mole_fraction := by
    unfold specProb
    rw [if_pos hc, hbf, hspecden, mul_one]
    exact mul_div_cancel_left₀ _ ha
  exact ⟨hbf, by rw [prob_lookup q kB s 0 temp d hn hd, hval],
    by rw [mobile_prob_lookup q kB s 0 temp d hn hdm, hval]⟩

theorem c7_zero_energy_probability_amended_witness :
    (0 : ℝ) < 300 ∧
      (siteOneMobile.defects.map DefectAtSite.label).Nodup ∧
      siteOneMobile.mobile_defects = [defectM] ∧
      defectM.energy = 0 ∧
      siteOneMobile.alpha ≠ 0 ∧
      (defectM.boltzmann_factor fundamental_charge boltzmann_eV 0 300 = 1 ∧
        siteOneMobile.probabilities fundamental_charge boltzmann_eV 0 300 (defectM.label) =
          some defectM.mole_fraction ∧
        siteOneMobile.mobile_defect_probabilities fundamental_charge boltzmann_eV 0 300
            (defectM.label) =
          some defectM.mole_fraction) :=
  have ha : siteOneMobile.alpha ≠ 0 := by
    norm_num [Site.alpha, Site.fixed_defects, siteOneMobile, defectM]
  ⟨by norm_num, by decide, rfl, rfl, ha,
    c7_zero_energy_probability_amended fundamental_charge boltzmann_eV siteOneMobile 300
      defectM (by norm_num) (by decide) rfl rfl ha⟩

/-- C7 counterexample: the claim quantifies over EVERY site.  On
`siteTwoMobile`, whose second mobile species has energy −1, the denominator
at `phi = 0` is `1 + (1/4)(e^c − 1) > 1` (with `c = 1/(boltzmann_eV·300)`),
so the zero-energy species "A" (mole fraction 1/4) gets probability
`(1/4)/denominator < 1/4`, not `1/4`. -/
theorem c7_zero_energy_probability_counterexample :
    siteTwoMobile.probabilities fundamental_charge boltzmann_eV 0 300 ("A") ≠
      some ((1 : ℝ)/4) := by
  have hdA : defectA0 ∈ siteTwoMobile.defects := List.mem_cons_self defectA0 [defectB1]
  have h0 : siteTwoMobile.probabilities fundamental_charge boltzmann_eV 0 300 ("A") =
      some (specProb fundamental_charge boltzmann_eV siteTwoMobile 0 300 defectA0) :=
    prob_lookup fundamental_charge boltzmann_eV siteTwoMobile 0 300 defectA0 (by decide) hdA
  rw [h0]
  have hbfB : defectB1.boltzmann_factor fundamental_charge boltzmann_eV 0 300 =
      Real.exp (1 / (boltzmann_eV * 300)) := by
    unfold DefectAtSite.boltzmann_factor
    norm_num [defectB1]
  have hbfA : defectA0.boltzmann_factor fundamental_charge boltzmann_eV 0 300 = 1 := by
    unfold DefectAtSite.boltzmann_factor
    norm_num [defectA0]
  have hv : specProb fundamental_charge boltzmann_eV siteTwoMobile 0 300 defectA0 =
      1/4 / (1 + 1/4 * (Real.exp (1 / (boltzmann_eV * 300)) - 1)) := by
    unfold specProb specDenominator
    rw [if_pos (show defectA0.can_equilibrate = true from rfl)]
    have hmob : siteTwoMobile.mobile_defects = [defectA0, defectB1] := rfl
    have halpha : siteTwoMobile.alpha = 1 := by
      norm_num [Site.alpha, Site.fixed_defects, siteTwoMobile, defectA0, defectB1]
    rw [hmob, halpha]
    simp only [List.map_cons, List.map_nil, List.sum_cons, List.sum_nil]
    rw [hbfA, hbfB]
    norm_num [defectA0, defectB1]
  rw [hv]
  intro heq
  rw [Option.some.injEq] at heq
  have hE : (1 : ℝ) < Real.exp (1 / (boltzmann_eV * 300)) := by
    have hc0 : (0 : ℝ) < 1 / (boltzmann_eV * 300) := by norm_num [boltzmann_eV]
    calc (1 : ℝ) = Real.exp 0 := Real.exp_zero.symm
      _ < _ := Real.exp_lt_exp.mpr hc0
  have hD : 1 < 1 + 1/4 * (Real.exp (1 / (boltzmann_eV * 300)) - 1) := by nlinarith
  have hlt : (1 : ℝ)/4 / (1 + 1/4 * (Real.exp (1 / (boltzmann_eV * 300)) - 1)) < 1/4 :=
    div_lt_self (by norm_num) hD
  exact absurd heq (ne_of_lt hlt)

/-- C8: on every site with no attached grid point, `average_local_energy`
fails for every method argument — but with the generic `ValueError("TODO")`
placeholder, not a distinct "unresolved aggregation context" condition. -/
theorem c8_average_local_energy_no_gridlink (s : Site) (h : s.grid_point = none)
    (method : String) :
    s.average_local_energy method = Except.error (PyError.valueError ("TODO")) := by
  unfold Site.average_local_energy
  rw [h]

theorem c8_average_local_energy_no_gridlink_witness :
    siteOneFixed.grid_point = none ∧
      siteOneFixed.average_local_energy ("mean") =
        Except.error (PyError.valueError ("TODO")) :=
  ⟨rfl, c8_average_local_energy_no_gridlink siteOneFixed rfl ("mean")⟩

/-- C9: the claim says `closest_index` always returns an index in
`[0, len(grid) − 1]` so that `phi_at_x` never indexes out of bounds.  On
`grid = [1, 2]` and `x = 3` (any `x` above every grid value), `bisect_left`
returns `len(grid)` and `closest_index` passes it through unchanged, an
out-of-range index, and `phi_at_x` fails with IndexError (modelled `none`). -/
theorem c9_closest_index_out_of_range :
    Practice.closest_index [1, 2] 3 = 2 ∧
      ([1, 2] : List ℚ).length - 1 < Practice.closest_index [1, 2] 3 ∧
      Practice.phi_at_x [10, 20] [1, 2] 3 = none := by
  refine ⟨rfl, by decide, rfl⟩

/-- C10: whenever `from_site_data` succeeds, the returned site has the
all-ones default scaling, saturation parameter 1.0 and the record's valence;
and the accepted `**kwargs` are never forwarded, so the result is identical
for any other keyword arguments (of any type). -/
theorem c10_from_site_data_defaults {K K' : Type} (sd : SiteData) (ds : List DefectSpecies)
    (kwargs : List (String × K)) (kwargs' : List (String × K')) (site : Site)
    (h : Site.from_site_data sd ds kwargs = Except.ok site) :
    site.scaling = List.replicate sd.defect_data.length 1 ∧
      site.saturation_parameter = 1 ∧
      site.valence = sd.valence ∧
      Site.from_site_data sd ds kwargs' = Except.ok site := by
  have h0 : Site.from_site_data sd ds kwargs' = Except.ok site := by
    have hsame : Site.from_site_data sd ds kwargs' = Site.from_site_data sd ds kwargs := rfl
    rw [hsame]
    exact h
  unfold Site.from_site_data Site.init at h
  simp only [listTruthy, Bool.false_and, Bool.false_eq_true, if_false] at h
  split at h
  · split at h
    · cases h
    · rw [Except.ok.injEq] at h
      subst h
      exact ⟨by simp [List.length_map], by norm_num, rfl, h0⟩
  · cases h

theorem c10_from_site_data_defaults_witness :
    Site.from_site_data sdExample dsExample [(("extra" : String), (3 : ℕ))] =
        Except.ok siteFromData ∧
      (siteFromData.scaling = List.replicate sdExample.defect_data.length 1 ∧
        siteFromData.saturation_parameter = 1 ∧
        siteFromData.valence = sdExample.valence ∧
        Site.from_site_data sdExample dsExample [(("other" : String), true)] =
          Except.ok siteFromData) :=
  have h : Site.from_site_data sdExample dsExample [(("extra" : String), (3 : ℕ))] =
      Except.ok siteFromData := rfl
  ⟨h, c10_from_site_data_defaults sdExample dsExample
    [(("extra" : String), (3 : ℕ))] [(("other" : String), true)] siteFromData h⟩

end Pyscses
